import Mathlib

/-!
# Verification of the xraybackend control-plane core

Shallow embedding of the repository's core components, translated from the
Python sources:

* `src/app/anti_sharing.py` — `ConnectionLimiter` (per-identifier session
  accounting with hard-block and log-only modes);
* `src/app/security.py` — `RateLimiter` (sliding-window admission by identity);
* `src/app/config.py` — `LOCALHOST_VALUES`;
* `src/app/xray_client.py` — descriptor registration (`_ensure_descriptor`,
  `_register_proto_definitions`) and the `XrayClient` gRPC wrapper
  (`__init__`, `start`, `_ensure_channel_ready`, `add_user`, `remove_user`,
  `check_health`).

Python dictionaries are modelled as association lists, `time.monotonic()`
timestamps as rationals passed explicitly, logger side effects as explicit
event lists, and the remote gRPC endpoint as an oracle argument mapping a
request to its outcome.  `try/except` becomes `Except`.
-/

namespace XrayBackend

/-! ## Association-list primitives (model of Python `dict`) -/

/-- `m[k]` lookup on a Python dict (keys are unique in every reachable
state, so first-match lookup is dict lookup). -/
def getVal {α : Type} : List (String × α) → String → Option α
  | [], _ => none
  | p :: rest, k => if p.1 == k then some p.2 else getVal rest k

/-- `m[k] = v` on a Python dict: overwrite the entry when the key is
present, append it otherwise. -/
def setVal {α : Type} : List (String × α) → String → α → List (String × α)
  | [], k, v => [(k, v)]
  | p :: rest, k, v => if p.1 == k then (k, v) :: rest else p :: setVal rest k v

/-- `m.pop(k, None)` on a Python dict (drop the entry when present). -/
def popKey {α : Type} (m : List (String × α)) (k : String) :
    List (String × α) :=
  m.filter (fun p => p.1 != k)

/-- `m.get(k, 0)` on a Python `Dict[str, int]`. -/
def getD (m : List (String × Nat)) (k : String) : Nat :=
  (getVal m k).getD 0

/-- `m[k] = v` on a Python `Dict[str, int]`. -/
def setKey (m : List (String × Nat)) (k : String) (v : Nat) :
    List (String × Nat) :=
  setVal m k v

/-! ## `src/app/anti_sharing.py` — `ConnectionLimiter` -/

/-- Warning events emitted through the logger by `ConnectionLimiter`. -/
inductive LogEvent where
  | connection_limit_exceeded (uuid : String) (active : Nat)
  | suspicious_activity (uuid : String)
deriving DecidableEq, Repr

/-- State of `ConnectionLimiter` (`src/app/anti_sharing.py`, `__init__`):
`max_connections = max(0, max_connections)`, `enabled = max_connections > 0`,
`_active : Dict[str, int]`.  The `asyncio.Lock` serialises each operation;
here each operation is a single atomic state transition. -/
structure ConnectionLimiter where
  max_connections : Nat
  log_only : Bool
  enabled : Bool
  active : List (String × Nat)
deriving Repr

/-- `ConnectionLimiter(max_connections, log_only)`: clamps the maximum at 0
and derives `enabled`. -/
def ConnectionLimiter.mk' (max_connections : Int) (log_only : Bool) :
    ConnectionLimiter :=
  { max_connections := (max 0 max_connections).toNat
    log_only := log_only
    enabled := decide (0 < (max 0 max_connections).toNat)
    active := [] }

/-- `ConnectionLimiter.start_session`: admits unconditionally when disabled;
otherwise rejects (hard mode) or admits with a warning (log-only mode) at the
limit, and increments below it.  Returns the admission flag, the new state and
the warnings logged. -/
def ConnectionLimiter.start_session (cl : ConnectionLimiter) (uuid : String) :
    Bool × ConnectionLimiter × List LogEvent :=
  if !cl.enabled then
    (true, cl, [])
  else
    let current := getD cl.active uuid
    if cl.max_connections ≤ current then
      (cl.log_only, cl, [LogEvent.connection_limit_exceeded uuid current])
    else
      (true, { cl with active := setKey cl.active uuid (current + 1) }, [])

/-- `ConnectionLimiter.end_session`: no-op when disabled; removes the entry
when the stored count is at most 1, otherwise decrements. -/
def ConnectionLimiter.end_session (cl : ConnectionLimiter) (uuid : String) :
    ConnectionLimiter :=
  if !cl.enabled then
    cl
  else
    let current := getD cl.active uuid
    if current ≤ 1 then
      { cl with active := popKey cl.active uuid }
    else
      { cl with active := setKey cl.active uuid (current - 1) }

/-- One call against the limiter, for reasoning about arbitrary interleavings
of `start_session` and `end_session`. -/
inductive LimiterOp where
  | start (uuid : String)
  | stop (uuid : String)
deriving DecidableEq, Repr

/-- Apply one operation, discarding the admission result and warnings. -/
def ConnectionLimiter.step (cl : ConnectionLimiter) : LimiterOp → ConnectionLimiter
  | LimiterOp.start uuid => (cl.start_session uuid).2.1
  | LimiterOp.stop uuid => cl.end_session uuid

/-- Run a sequence of limiter operations from a given state. -/
def ConnectionLimiter.runOps (cl : ConnectionLimiter) (ops : List LimiterOp) :
    ConnectionLimiter :=
  ops.foldl ConnectionLimiter.step cl

/-! ## `src/app/security.py` — `RateLimiter` -/

/-- State of `RateLimiter` (`src/app/security.py`): `max_requests`,
`window_seconds`, `_hits : Dict[str, List[float]]`.  Monotonic-clock
timestamps are rationals. -/
structure RateLimiter where
  max_requests : Nat
  window_seconds : ℚ
  hits : List (String × List ℚ)
deriving Repr

/-- The timestamp list stored for `identity` (`self._hits.get(identity, [])`). -/
def RateLimiter.hitsOf (rl : RateLimiter) (identity : String) : List ℚ :=
  (getVal rl.hits identity).getD []

/-- Store a timestamp list for `identity` (`self._hits[identity] = hits`). -/
def RateLimiter.setHits (rl : RateLimiter) (identity : String) (l : List ℚ) :
    RateLimiter :=
  { rl with hits := setVal rl.hits identity l }

/-- The stored timestamps still inside the trailing window at time `now`
(`[ts for ts in hits if ts >= window_start]`). -/
def RateLimiter.pruned (rl : RateLimiter) (identity : String) (now : ℚ) :
    List ℚ :=
  (rl.hitsOf identity).filter (fun ts => now - rl.window_seconds ≤ ts)

/-- `RateLimiter.allow(identity)` at clock reading `now`: prune the stored
window, reject (storing only the pruned list) when it already holds
`max_requests` entries, otherwise append `now` and admit. -/
def RateLimiter.allow (rl : RateLimiter) (identity : String) (now : ℚ) :
    Bool × RateLimiter :=
  let hits := rl.pruned identity now
  if rl.max_requests ≤ hits.length then
    (false, rl.setHits identity hits)
  else
    (true, rl.setHits identity (hits ++ [now]))

/-- Run `allow` at each clock reading in turn, collecting the results. -/
def RateLimiter.allowTrace (rl : RateLimiter) (identity : String) :
    List ℚ → List Bool
  | [] => []
  | now :: rest =>
    let (b, rl') := rl.allow identity now
    b :: rl'.allowTrace identity rest

/-- Modelled from the claim's words, for comparison with `RateLimiter.allow`:
every call records the current timestamp for the identity, prunes timestamps
older than the window, and returns whether the pruned count (including the
new timestamp) is within `max_requests`. -/
def RateLimiter.allowClaimed (rl : RateLimiter) (identity : String) (now : ℚ) :
    Bool × RateLimiter :=
  let hits := (rl.hitsOf identity ++ [now]).filter
    (fun ts => now - rl.window_seconds ≤ ts)
  (decide (hits.length ≤ rl.max_requests), rl.setHits identity hits)

/-- Run `allowClaimed` at each clock reading in turn. -/
def RateLimiter.allowClaimedTrace (rl : RateLimiter) (identity : String) :
    List ℚ → List Bool
  | [] => []
  | now :: rest =>
    let (b, rl') := rl.allowClaimed identity now
    b :: rl'.allowClaimedTrace identity rest

/-! ## `src/app/config.py` — loopback whitelist -/

/-- `LOCALHOST_VALUES` from `src/app/config.py`. -/
def LOCALHOST_VALUES : List String := ["127.0.0.1", "localhost", "::1"]

/-! ## `src/app/xray_client.py` — descriptor registration -/

/-- Module constant `HANDLER_SERVICE`. -/
def HANDLER_SERVICE : String := "xray.app.proxyman.command.HandlerService"

/-- Module constant `ACCOUNT_TYPE_URL`. -/
def ACCOUNT_TYPE_URL : String := "type.googleapis.com/xray.proxy.vless.Account"

/-- The protobuf field types used by the hand-assembled schemas. -/
inductive FieldType where
  | TYPE_STRING
  | TYPE_UINT32
  | TYPE_MESSAGE
  | TYPE_BYTES
deriving DecidableEq, Repr

/-- The only field label the schemas use. -/
inductive FieldLabel where
  | LABEL_OPTIONAL
deriving DecidableEq, Repr

/-- One field of a message schema (`descriptor_pb2.FieldDescriptorProto`). -/
structure FieldDescriptorProto where
  name : String
  number : Nat
  label : FieldLabel
  type : FieldType
  type_name : String := ""
deriving DecidableEq, Repr

/-- One message schema (`descriptor_pb2.DescriptorProto`). -/
structure DescriptorProto where
  name : String
  field : List FieldDescriptorProto := []
deriving DecidableEq, Repr

/-- One schema file (`descriptor_pb2.FileDescriptorProto`). -/
structure FileDescriptorProto where
  name : String
  package : String
  dependency : List String := []
  message_type : List DescriptorProto := []
deriving DecidableEq, Repr

/-- The process-wide schema catalog (`descriptor_pool`): the list of
registered schema files, in registration order. -/
structure DescriptorPool where
  files : List FileDescriptorProto
deriving DecidableEq, Repr

/-- `pool.FindFileByName(n)` (`None` models the `KeyError` branch). -/
def DescriptorPool.findFileByName (p : DescriptorPool) (n : String) :
    Option FileDescriptorProto :=
  p.files.find? (fun f => f.name == n)

/-- `pool.FindMessageTypeByName(fq)` succeeds: some registered file defines a
message whose package-qualified name is `fq`. -/
def DescriptorPool.hasMessage (p : DescriptorPool) (fq : String) : Bool :=
  p.files.any (fun f => f.message_type.any
    (fun m => f.package ++ "." ++ m.name == fq))

/-- The duplicate-definition failure `pool.Add` can raise. -/
structure DuplicateDefinitionError where
  name : String
deriving DecidableEq, Repr

/-- `pool.Add(fp)`: rejects a file whose name, or any of whose qualified
message names, is already registered; otherwise appends the file. -/
def DescriptorPool.add (p : DescriptorPool) (fp : FileDescriptorProto) :
    Except DuplicateDefinitionError DescriptorPool :=
  if (p.findFileByName fp.name).isSome then
    Except.error ⟨fp.name⟩
  else if fp.message_type.any
      (fun m => p.hasMessage (fp.package ++ "." ++ m.name)) then
    Except.error ⟨fp.package⟩
  else
    Except.ok { files := p.files ++ [fp] }

/-- `_ensure_descriptor`: look the file name up first and only `Add` when it
is absent. -/
def ensure_descriptor (p : DescriptorPool) (fp : FileDescriptorProto) :
    Except DuplicateDefinitionError DescriptorPool :=
  match p.findFileByName fp.name with
  | some _ => Except.ok p
  | none => p.add fp

/-- The VLESS account schema file built in `_register_proto_definitions`. -/
def account_file : FileDescriptorProto :=
  { name := "xray_proxy_vless.proto"
    package := "xray.proxy.vless"
    message_type := [
      { name := "Account"
        field := [
          { name := "id", number := 1, label := FieldLabel.LABEL_OPTIONAL,
            type := FieldType.TYPE_STRING },
          { name := "flow", number := 2, label := FieldLabel.LABEL_OPTIONAL,
            type := FieldType.TYPE_STRING },
          { name := "encryption", number := 3,
            label := FieldLabel.LABEL_OPTIONAL,
            type := FieldType.TYPE_STRING }] }] }

/-- The shared user schema file built in `_register_proto_definitions`. -/
def user_file : FileDescriptorProto :=
  { name := "xray_common_protocol.proto"
    package := "xray.common.protocol"
    dependency := ["google/protobuf/any.proto"]
    message_type := [
      { name := "User"
        field := [
          { name := "email", number := 1, label := FieldLabel.LABEL_OPTIONAL,
            type := FieldType.TYPE_STRING },
          { name := "level", number := 2, label := FieldLabel.LABEL_OPTIONAL,
            type := FieldType.TYPE_UINT32 },
          { name := "alter_id", number := 3,
            label := FieldLabel.LABEL_OPTIONAL,
            type := FieldType.TYPE_UINT32 },
          { name := "account", number := 4,
            label := FieldLabel.LABEL_OPTIONAL,
            type := FieldType.TYPE_MESSAGE,
            type_name := ".google.protobuf.Any" }] }] }

/-- The handler service schema file built in `_register_proto_definitions`. -/
def handler_file : FileDescriptorProto :=
  { name := "xray_proxyman_command.proto"
    package := "xray.app.proxyman.command"
    dependency := ["xray_common_protocol.proto"]
    message_type := [
      { name := "AddUserRequest"
        field := [
          { name := "tag", number := 1, label := FieldLabel.LABEL_OPTIONAL,
            type := FieldType.TYPE_STRING },
          { name := "user", number := 2, label := FieldLabel.LABEL_OPTIONAL,
            type := FieldType.TYPE_MESSAGE,
            type_name := ".xray.common.protocol.User" }] },
      { name := "AddUserResponse" },
      { name := "RemoveUserRequest"
        field := [
          { name := "tag", number := 1, label := FieldLabel.LABEL_OPTIONAL,
            type := FieldType.TYPE_STRING },
          { name := "email", number := 2, label := FieldLabel.LABEL_OPTIONAL,
            type := FieldType.TYPE_STRING }] },
      { name := "RemoveUserResponse" }] }

/-- One guarded block of `_register_proto_definitions`: skip when the probe
message is already registered, otherwise run `_ensure_descriptor` on the
block's schema file. -/
def ensure_message (msg : String) (fp : FileDescriptorProto)
    (p : DescriptorPool) : Except DuplicateDefinitionError DescriptorPool :=
  if p.hasMessage msg then Except.ok p else ensure_descriptor p fp

/-- `_register_proto_definitions`: the three guarded registration blocks in
source order (account, user, handler service). -/
def register_proto_definitions (p : DescriptorPool) :
    Except DuplicateDefinitionError DescriptorPool :=
  match ensure_message "xray.proxy.vless.Account" account_file p with
  | Except.error e => Except.error e
  | Except.ok p1 =>
    match ensure_message "xray.common.protocol.User" user_file p1 with
    | Except.error e => Except.error e
    | Except.ok p2 =>
      ensure_message "xray.app.proxyman.command.AddUserRequest" handler_file p2

/-- Run `_register_proto_definitions` `n` times against the shared catalog
(one call per client instance or module import). -/
def registerIter : Nat → DescriptorPool →
    Except DuplicateDefinitionError DescriptorPool
  | 0, p => Except.ok p
  | n + 1, p =>
    match register_proto_definitions p with
    | Except.error e => Except.error e
    | Except.ok q => registerIter n q

/-- The default pool at process start: holds the well-known
`google/protobuf/any.proto` the user schema depends on, and none of the
xray schemas. -/
def default_pool : DescriptorPool :=
  { files := [
      { name := "google/protobuf/any.proto"
        package := "google.protobuf"
        message_type := [
          { name := "Any"
            field := [
              { name := "type_url", number := 1,
                label := FieldLabel.LABEL_OPTIONAL,
                type := FieldType.TYPE_STRING },
              { name := "value", number := 2,
                label := FieldLabel.LABEL_OPTIONAL,
                type := FieldType.TYPE_BYTES }] }] }] }

/-! ## `src/app/xray_client.py` — messages and client -/

/-- The VLESS `Account` message (`xray.proxy.vless.Account`). -/
structure Account where
  id : String := ""
  flow : String := ""
  encryption : String := ""
deriving DecidableEq, Repr

/-- The Any-wrapped account payload (`google.protobuf.Any` holding an
`Account`). -/
structure AnyMessage where
  type_url : String
  value : Account
deriving DecidableEq, Repr

/-- The `xray.common.protocol.User` message. -/
structure User where
  email : String
  level : Nat
  alter_id : Nat
  account : AnyMessage
deriving DecidableEq, Repr

/-- The `xray.app.proxyman.command.AddUserRequest` message. -/
structure AddUserRequest where
  tag : String
  user : User
deriving DecidableEq, Repr

/-- The `xray.app.proxyman.command.RemoveUserRequest` message. -/
structure RemoveUserRequest where
  tag : String
  email : String
deriving DecidableEq, Repr

/-- `XrayClientError`, the error the client raises.  The spec calls its
construction-time use `ConfigurationError`, its connectivity use
`ManagementUnavailable` and its remote-rejection use `ManagementError`; the
code uses this one class for all three, distinguished by message. -/
structure XrayClientError where
  message : String
deriving DecidableEq, Repr

/-- `x or y` on Python strings where `x` may be `None`: the right operand is
used when the left is missing or empty.  Models `exc.details() or str(exc)`
and `flow or ""`. -/
def pyOrStr (a : Option String) (b : String) : String :=
  match a with
  | none => b
  | some s => if s == "" then b else s

/-- Outcome of waiting for channel readiness
(`await asyncio.wait_for(self._channel.channel_ready(), timeout=2)`):
it becomes ready, times out, or fails with a transport error carrying
optional details and a string rendering of the exception. -/
inductive ReadyOutcome where
  | ready
  | timedOut
  | rpcFailed (details : Option String) (excStr : String)
deriving DecidableEq, Repr

/-- A gRPC status code (`grpc.StatusCode`). -/
inductive StatusCode where
  | OK
  | CANCELLED
  | UNKNOWN
  | INVALID_ARGUMENT
  | DEADLINE_EXCEEDED
  | NOT_FOUND
  | ALREADY_EXISTS
  | PERMISSION_DENIED
  | UNAUTHENTICATED
  | RESOURCE_EXHAUSTED
  | FAILED_PRECONDITION
  | ABORTED
  | OUT_OF_RANGE
  | UNIMPLEMENTED
  | INTERNAL
  | UNAVAILABLE
  | DATA_LOSS
deriving DecidableEq, Repr

/-- Outcome of one unary RPC: acknowledged, or rejected with an
`AioRpcError` carrying a status code, optional details and a string
rendering. -/
inductive RpcResult where
  | acked
  | failed (code : StatusCode) (details : Option String) (excStr : String)
deriving DecidableEq, Repr

/-- Python's `str.lower()`: lower-case character by character. -/
def lowerString (s : String) : String :=
  ⟨s.data.map Char.toLower⟩

/-- Whether `n` occurs as a contiguous run inside the second list. -/
def runInside (n : List Char) : List Char → Bool
  | [] => n.isEmpty
  | c :: rest => List.isPrefixOf n (c :: rest) || runInside n rest

/-- Python's `needle in haystack` on strings. -/
def containsSub (needle haystack : String) : Bool :=
  runInside needle.toList haystack.toList

/-- State of one `XrayClient` instance.  The channel, once opened by
`start`, stays recorded even when the readiness wait then fails, exactly as
`self._channel` stays set in the source. -/
structure XrayClient where
  target : String
  inbound_tag : String
  account_type_url : String
  handler_service : String
  flow : String
  encryption : String
  channel_open : Bool
deriving DecidableEq, Repr

/-- `XrayClient.__init__`: reject any non-loopback host before touching
anything else; otherwise record the configuration with the channel unopened
(no connection is attempted at construction). -/
def XrayClient.init (host : String) (port : Int) (inbound_tag : String)
    (account_type_url : String) (handler_service : String)
    (flow : String) (encryption : String) :
    Except XrayClientError XrayClient :=
  if !LOCALHOST_VALUES.contains host then
    Except.error ⟨"Xray gRPC must be accessed via localhost"⟩
  else
    Except.ok
      { target := host ++ ":" ++ toString port
        inbound_tag := inbound_tag
        account_type_url := account_type_url
        handler_service := handler_service
        flow := pyOrStr (some flow) ""
        encryption := pyOrStr (some encryption) "none"
        channel_open := false }

/-- `XrayClient._ensure_channel_ready`: error when no channel is held, then
map a timeout or a transport error to `XrayClientError`. -/
def ensure_channel_ready (channel_open : Bool) (r : ReadyOutcome) :
    Except XrayClientError Unit :=
  if !channel_open then
    Except.error ⟨"Xray gRPC channel not initialized"⟩
  else
    match r with
    | ReadyOutcome.ready => Except.ok ()
    | ReadyOutcome.timedOut => Except.error ⟨"Timed out connecting to Xray gRPC"⟩
    | ReadyOutcome.rpcFailed d s => Except.error ⟨pyOrStr d s⟩

/-- `XrayClient.start`: a no-op when a channel is already held; otherwise
open the channel (this mutation persists even on failure) and wait for
readiness. -/
def XrayClient.start (cl : XrayClient) (r : ReadyOutcome) :
    XrayClient × Except XrayClientError Unit :=
  if cl.channel_open then
    (cl, Except.ok ())
  else
    let cl2 := { cl with channel_open := true }
    (cl2, ensure_channel_ready cl2.channel_open r)

/-- The readiness preamble shared by `add_user` and `remove_user`:
`start()` when no channel is held, `_ensure_channel_ready()` otherwise. -/
def XrayClient.ensure_started (cl : XrayClient) (r : ReadyOutcome) :
    XrayClient × Except XrayClientError Unit :=
  if cl.channel_open then
    (cl, ensure_channel_ready cl.channel_open r)
  else
    cl.start r

/-- `XrayClient._build_account_any`: an `Account` with `id = uuid` and the
configured flow and encryption, packed under the `type.googleapis.com`
prefix, with the type URL then overridden when `account_type_url` is
non-empty. -/
def XrayClient.build_account_any (cl : XrayClient) (uuid : String) :
    AnyMessage :=
  let account : Account :=
    { id := uuid
      flow := if cl.flow == "" then "" else cl.flow
      encryption := if cl.encryption == "" then "" else cl.encryption }
  let packed_url := "type.googleapis.com/xray.proxy.vless.Account"
  { type_url := if cl.account_type_url == "" then packed_url
                else cl.account_type_url
    value := account }

/-- The `AddUserRequest` built by `XrayClient.add_user` for `uuid`. -/
def XrayClient.build_add_user_request (cl : XrayClient) (uuid : String) :
    AddUserRequest :=
  { tag := cl.inbound_tag
    user :=
      { email := uuid
        level := 0
        alter_id := 0
        account := cl.build_account_any uuid } }

/-- `XrayClient.add_user`: ensure readiness, send `AddUserRequest` to the
remote, and classify the outcome: acknowledgement is `true`;
`ALREADY_EXISTS`, or `"exist"` inside the lower-cased details, is `false`;
anything else raises `XrayClientError` with `exc.details() or str(exc)`. -/
def XrayClient.add_user (cl : XrayClient) (r : ReadyOutcome)
    (remote : AddUserRequest → RpcResult) (uuid : String) :
    XrayClient × Except XrayClientError Bool :=
  let (cl2, res) := cl.ensure_started r
  match res with
  | Except.error e => (cl2, Except.error e)
  | Except.ok _ =>
    let request := cl2.build_add_user_request uuid
    match remote request with
    | RpcResult.acked => (cl2, Except.ok true)
    | RpcResult.failed code details excStr =>
      let d := lowerString (details.getD "")
      if code == StatusCode.ALREADY_EXISTS || containsSub "exist" d then
        (cl2, Except.ok false)
      else
        (cl2, Except.error ⟨pyOrStr details excStr⟩)

/-- `XrayClient.remove_user`: ensure readiness, send `RemoveUserRequest`,
and classify: acknowledgement is `true`; `NOT_FOUND`, `FAILED_PRECONDITION`,
or `"not found"` inside the lower-cased details, is `false`; anything else
raises `XrayClientError` with `exc.details() or str(exc)`. -/
def XrayClient.remove_user (cl : XrayClient) (r : ReadyOutcome)
    (remote : RemoveUserRequest → RpcResult) (uuid : String) :
    XrayClient × Except XrayClientError Bool :=
  let (cl2, res) := cl.ensure_started r
  match res with
  | Except.error e => (cl2, Except.error e)
  | Except.ok _ =>
    let request : RemoveUserRequest :=
      { tag := cl2.inbound_tag, email := uuid }
    match remote request with
    | RpcResult.acked => (cl2, Except.ok true)
    | RpcResult.failed code details excStr =>
      let d := lowerString (details.getD "")
      if code == StatusCode.NOT_FOUND
          || code == StatusCode.FAILED_PRECONDITION
          || containsSub "not found" d then
        (cl2, Except.ok false)
      else
        (cl2, Except.error ⟨pyOrStr details excStr⟩)

/-- `XrayClient.check_health`: `start()` when no channel is held, then the
readiness check, with every `XrayClientError` caught and turned into
`false`; the result is a plain boolean. -/
def XrayClient.check_health (cl : XrayClient) (r : ReadyOutcome) :
    XrayClient × Bool :=
  let (cl2, res) :=
    if cl.channel_open then (cl, Except.ok ()) else cl.start r
  match res with
  | Except.error _ => (cl2, false)
  | Except.ok _ =>
    match ensure_channel_ready cl2.channel_open r with
    | Except.ok _ => (cl2, true)
    | Except.error _ => (cl2, false)

/-- The catalog after one successful registration pass from the default
pool: the three xray schema files appended in source order. -/
def registered_pool : DescriptorPool :=
  { files := default_pool.files ++ [account_file, user_file, handler_file] }

/-- A concrete client configuration (the application's defaults from
`src/app/config.py` and `src/app/main.py`), used to instantiate theorems. -/
def probe_client : XrayClient :=
  { target := "127.0.0.1:10085"
    inbound_tag := "vless-reality"
    account_type_url := ACCOUNT_TYPE_URL
    handler_service := HANDLER_SERVICE
    flow := ""
    encryption := "none"
    channel_open := true }

/-! ## Helper lemmas: association lists -/

theorem getVal_setVal_self {α : Type} (m : List (String × α)) (k : String)
    (v : α) : getVal (setVal m k v) k = some v := by
  induction m with
  | nil => simp [setVal, getVal]
  | cons p rest ih =>
    by_cases h : (p.1 == k) = true
    · simp [setVal, getVal, h]
    · simp [setVal, getVal, h, ih]

theorem mem_setVal {α : Type} {m : List (String × α)} {k : String} {v : α}
    {q : String × α} (h : q ∈ setVal m k v) : q = (k, v) ∨ q ∈ m := by
  induction m with
  | nil => simpa [setVal] using h
  | cons p rest ih =>
    by_cases hp : (p.1 == k) = true
    · simp only [setVal, hp, if_pos] at h
      rcases List.mem_cons.mp h with h | h
      · exact Or.inl h
      · exact Or.inr (List.mem_cons_of_mem _ h)
    · simp only [setVal, hp] at h
      rcases List.mem_cons.mp h with h | h
      · exact Or.inr (h ▸ List.mem_cons_self _ _)
      · rcases ih h with h2 | h2
        · exact Or.inl h2
        · exact Or.inr (List.mem_cons_of_mem _ h2)

theorem mem_popKey {α : Type} {m : List (String × α)} {k : String}
    {q : String × α} (h : q ∈ popKey m k) : q ∈ m ∧ q.1 ≠ k := by
  unfold popKey at h
  have h2 := List.mem_filter.mp h
  refine ⟨h2.1, ?_⟩
  simpa using h2.2

theorem getD_le_of_bound {m : List (String × Nat)} {M : Nat} {k : String}
    (h : ∀ p ∈ m, p.2 ≤ M) : getD m k ≤ M := by
  induction m with
  | nil => simp [getD, getVal]
  | cons p rest ih =>
    by_cases hp : (p.1 == k) = true
    · simpa [getD, getVal, hp] using h p (List.mem_cons_self _ _)
    · have := ih (fun q hq => h q (List.mem_cons_of_mem _ hq))
      simpa [getD, getVal, hp] using this

/-! ## Helper lemmas: connection limiter transitions -/

theorem start_session_disabled (cl : ConnectionLimiter) (uuid : String)
    (h : cl.enabled = false) : cl.start_session uuid = (true, cl, []) := by
  simp [ConnectionLimiter.start_session, h]

theorem end_session_disabled (cl : ConnectionLimiter) (uuid : String)
    (h : cl.enabled = false) : cl.end_session uuid = cl := by
  simp [ConnectionLimiter.end_session, h]

theorem step_disabled (cl : ConnectionLimiter) (op : LimiterOp)
    (h : cl.enabled = false) : cl.step op = cl := by
  cases op with
  | start uuid => simp [ConnectionLimiter.step, start_session_disabled cl uuid h]
  | stop uuid => simp [ConnectionLimiter.step, end_session_disabled cl uuid h]

theorem start_session_state (cl : ConnectionLimiter) (uuid : String) :
    (cl.start_session uuid).2.1 = cl ∨
    ((cl.start_session uuid).2.1 =
        { cl with active := setKey cl.active uuid (getD cl.active uuid + 1) } ∧
      getD cl.active uuid < cl.max_connections) := by
  unfold ConnectionLimiter.start_session
  by_cases he : cl.enabled = true
  · by_cases hc : cl.max_connections ≤ getD cl.active uuid
    · simp [he, hc]
    · right
      constructor
      · simp [he, hc]
      · omega
  · left
    simp at he
    simp [he]

theorem end_session_state (cl : ConnectionLimiter) (uuid : String) :
    cl.end_session uuid = cl ∨
    (cl.end_session uuid = { cl with active := popKey cl.active uuid } ∧
      getD cl.active uuid ≤ 1) ∨
    (cl.end_session uuid =
        { cl with active := setKey cl.active uuid (getD cl.active uuid - 1) } ∧
      1 < getD cl.active uuid) := by
  unfold ConnectionLimiter.end_session
  by_cases he : cl.enabled = true
  · by_cases hc : getD cl.active uuid ≤ 1
    · right; left
      exact ⟨by simp [he, hc], hc⟩
    · right; right
      refine ⟨by simp [he, hc], by omega⟩
  · left
    simp at he
    simp [he]

theorem step_config (cl : ConnectionLimiter) (op : LimiterOp) :
    (cl.step op).max_connections = cl.max_connections ∧
    (cl.step op).enabled = cl.enabled ∧
    (cl.step op).log_only = cl.log_only := by
  cases op with
  | start uuid =>
    rcases start_session_state cl uuid with h | ⟨h, _⟩ <;>
      simp [ConnectionLimiter.step, h]
  | stop uuid =>
    rcases end_session_state cl uuid with h | ⟨h, _⟩ | ⟨h, _⟩ <;>
      simp [ConnectionLimiter.step, h]

theorem step_entries (cl : ConnectionLimiter) (op : LimiterOp)
    (h1 : ∀ p ∈ cl.active, 0 < p.2 ∧ p.2 ≤ cl.max_connections) :
    ∀ p ∈ (cl.step op).active, 0 < p.2 ∧ p.2 ≤ cl.max_connections := by
  cases op with
  | start uuid =>
    rcases start_session_state cl uuid with h | ⟨h, hlt⟩
    · simpa [ConnectionLimiter.step, h] using h1
    · intro p hp
      simp only [ConnectionLimiter.step, h] at hp
      rcases mem_setVal hp with h2 | h2
      · subst h2
        constructor
        · omega
        · omega
      · exact h1 p h2
  | stop uuid =>
    rcases end_session_state cl uuid with h | ⟨h, _⟩ | ⟨h, hgt⟩
    · simpa [ConnectionLimiter.step, h] using h1
    · intro p hp
      simp only [ConnectionLimiter.step, h] at hp
      exact h1 p (mem_popKey hp).1
    · intro p hp
      simp only [ConnectionLimiter.step, h] at hp
      rcases mem_setVal hp with h2 | h2
      · subst h2
        have hle : getD cl.active uuid ≤ cl.max_connections :=
          getD_le_of_bound (fun q hq => (h1 q hq).2)
        constructor
        · omega
        · omega
      · exact h1 p h2

theorem runOps_inv (cl : ConnectionLimiter) (ops : List LimiterOp)
    (h1 : ∀ p ∈ cl.active, 0 < p.2 ∧ p.2 ≤ cl.max_connections)
    (h2 : cl.enabled = false → cl.active = []) :
    (cl.runOps ops).max_connections = cl.max_connections ∧
    (cl.runOps ops).enabled = cl.enabled ∧
    (∀ p ∈ (cl.runOps ops).active, 0 < p.2 ∧ p.2 ≤ cl.max_connections) ∧
    ((cl.runOps ops).enabled = false → (cl.runOps ops).active = []) := by
  induction ops generalizing cl with
  | nil => exact ⟨rfl, rfl, h1, h2⟩
  | cons op ops ih =>
    have hstep := step_config cl op
    have hrun : cl.runOps (op :: ops) = (cl.step op).runOps ops := rfl
    by_cases he : cl.enabled = true
    · have h1s := step_entries cl op h1
      rw [← hstep.1] at h1s
      have h2s : (cl.step op).enabled = false → (cl.step op).active = [] := by
        intro hfalse
        rw [hstep.2.1] at hfalse
        rw [hfalse] at he
        simp at he
      have := ih (cl.step op) h1s h2s
      rw [hrun]
      exact ⟨by rw [this.1, hstep.1], by rw [this.2.1, hstep.2.1],
        by rw [← hstep.1]; exact this.2.2.1, this.2.2.2⟩
    · simp only [Bool.not_eq_true] at he
      have hfix := step_disabled cl op he
      have := ih (cl.step op) (by rw [hfix]; exact h1) (by rw [hfix]; exact h2)
      rw [hrun]
      exact ⟨by rw [this.1, hstep.1], by rw [this.2.1, hstep.2.1],
        by rw [← hstep.1]; exact this.2.2.1, this.2.2.2⟩

/-! ## Claim theorems: connection limiter -/

/-- C6: in hard-block mode with `maxConnections = 1`, for every identifier,
starting from an empty counter map, the first `start_session` returns
`true`, a second `start_session` before any `end_session` returns `false`,
and after one `end_session` a subsequent `start_session` returns `true`
again. -/
theorem hard_block_session_cycle (uuid : String) :
    ((ConnectionLimiter.mk' 1 false).start_session uuid).1 = true ∧
    ((((ConnectionLimiter.mk' 1 false).start_session uuid).2.1).start_session
        uuid).1 = false ∧
    (((((ConnectionLimiter.mk' 1 false).start_session uuid).2.1).end_session
        uuid).start_session uuid).1 = true := by
  simp [ConnectionLimiter.mk', ConnectionLimiter.start_session,
    ConnectionLimiter.end_session, getD, getVal, setKey, setVal, popKey]

/-- C7: with accounting enabled, a `start_session` for an identifier whose
count has reached the configured maximum logs a
`connection_limit_exceeded` warning, leaves the state unchanged, and
returns the `log_only` flag — `false` in hard-block mode, `true` in
log-only mode; below the maximum it logs nothing, increments the count and
returns `true` in both modes. -/
theorem start_session_at_limit (cl : ConnectionLimiter) (uuid : String)
    (henb : cl.enabled = true) :
    (cl.max_connections ≤ getD cl.active uuid →
      (cl.start_session uuid).1 = cl.log_only ∧
      (cl.start_session uuid).2.1 = cl ∧
      (cl.start_session uuid).2.2 =
        [LogEvent.connection_limit_exceeded uuid (getD cl.active uuid)]) ∧
    (getD cl.active uuid < cl.max_connections →
      (cl.start_session uuid).1 = true ∧
      getD (cl.start_session uuid).2.1.active uuid = getD cl.active uuid + 1 ∧
      (cl.start_session uuid).2.2 = []) := by
  constructor
  · intro h
    simp [ConnectionLimiter.start_session, henb, h]
  · intro h
    have h2 : ¬ cl.max_connections ≤ getD cl.active uuid := by omega
    simp only [getD] at h2
    simp [ConnectionLimiter.start_session, henb, h2, getD, setKey,
      getVal_setVal_self]

/-- Witness for C7: at the limit (count 1 of maximum 1) hard-block mode
rejects and log-only mode admits; below the limit (count 1 of maximum 2)
hard-block mode admits. -/
theorem start_session_at_limit_witness :
    (({ max_connections := 1, log_only := false, enabled := true,
        active := [("A", 1)] } : ConnectionLimiter).start_session "A").1
      = false ∧
    (({ max_connections := 1, log_only := true, enabled := true,
        active := [("A", 1)] } : ConnectionLimiter).start_session "A").1
      = true ∧
    (({ max_connections := 2, log_only := false, enabled := true,
        active := [("A", 1)] } : ConnectionLimiter).start_session "A").1
      = true := by
  refine ⟨?_, ?_, ?_⟩
  · exact ((start_session_at_limit _ "A" rfl).1 (by decide)).1
  · exact ((start_session_at_limit _ "A" rfl).1 (by decide)).1
  · exact ((start_session_at_limit _ "A" rfl).2 (by decide)).1

/-- C8: after any sequence of `start_session`/`end_session` calls from a
fresh limiter, every identifier present in the counter map has a strictly
positive count; and `end_session` for an identifier whose count would reach
zero (count at most 1, including absent identifiers) leaves no entry for
that identifier. -/
theorem session_counter_never_zero (mc : Int) (lo : Bool)
    (ops : List LimiterOp) (uuid : String) :
    (∀ p ∈ ((ConnectionLimiter.mk' mc lo).runOps ops).active, 0 < p.2) ∧
    (getD ((ConnectionLimiter.mk' mc lo).runOps ops).active uuid ≤ 1 →
      ∀ q ∈ (((ConnectionLimiter.mk' mc lo).runOps ops).end_session
          uuid).active, q.1 ≠ uuid) := by
  have hbase1 : ∀ p ∈ (ConnectionLimiter.mk' mc lo).active,
      0 < p.2 ∧ p.2 ≤ (ConnectionLimiter.mk' mc lo).max_connections := by
    intro p hp
    simp [ConnectionLimiter.mk'] at hp
  have hbase2 : (ConnectionLimiter.mk' mc lo).enabled = false →
      (ConnectionLimiter.mk' mc lo).active = [] := fun _ => rfl
  have hinv := runOps_inv (ConnectionLimiter.mk' mc lo) ops hbase1 hbase2
  refine ⟨fun p hp => (hinv.2.2.1 p hp).1, ?_⟩
  intro hle q hq
  by_cases he : ((ConnectionLimiter.mk' mc lo).runOps ops).enabled = true
  · rw [ConnectionLimiter.end_session] at hq
    simp only [he, Bool.not_true, Bool.false_eq_true, if_false, hle,
      if_pos] at hq
    exact (mem_popKey hq).2
  · simp only [Bool.not_eq_true] at he
    rw [end_session_disabled _ _ he] at hq
    rw [hinv.2.2.2 he] at hq
    simp at hq

/-- Witness for C8: with maximum 2 and sessions started for identifiers
`A` then `B`, ending the session of `A` (count 1) removes its entry; the
surviving entry belongs to `B`. -/
theorem session_counter_never_zero_witness : ("B" : String) ≠ "A" := by
  have h := (session_counter_never_zero 2 false
    [LimiterOp.start "A", LimiterOp.start "B"] "A").2 (by decide)
    ("B", 1) (by decide)
  exact h

/-- C10: after any operation sequence from a fresh limiter, every stored
count is at most the configured maximum, and a `start_session` for an
identifier already at (or beyond) the maximum leaves the counter map
unchanged in every mode — log-only admissions above the limit are never
recorded. -/
theorem session_counter_bounded (mc : Int) (lo : Bool) (ops : List LimiterOp) :
    (∀ p ∈ ((ConnectionLimiter.mk' mc lo).runOps ops).active,
        p.2 ≤ (ConnectionLimiter.mk' mc lo).max_connections) ∧
    (∀ (cl : ConnectionLimiter) (uuid : String),
        cl.max_connections ≤ getD cl.active uuid →
        (cl.start_session uuid).2.1 = cl) := by
  have hbase1 : ∀ p ∈ (ConnectionLimiter.mk' mc lo).active,
      0 < p.2 ∧ p.2 ≤ (ConnectionLimiter.mk' mc lo).max_connections := by
    intro p hp
    simp [ConnectionLimiter.mk'] at hp
  have hbase2 : (ConnectionLimiter.mk' mc lo).enabled = false →
      (ConnectionLimiter.mk' mc lo).active = [] := fun _ => rfl
  have hinv := runOps_inv (ConnectionLimiter.mk' mc lo) ops hbase1 hbase2
  refine ⟨fun p hp => (hinv.2.2.1 p hp).2, ?_⟩
  intro cl uuid h
  by_cases he : cl.enabled = true
  · simp [ConnectionLimiter.start_session, he, h]
  · simp only [Bool.not_eq_true] at he
    rw [start_session_disabled cl uuid he]

/-- Witness for C10: a log-only limiter at its maximum admits without
touching the stored count. -/
theorem session_counter_bounded_witness :
    ((⟨1, true, true, [("A", 1)]⟩ : ConnectionLimiter).start_session "A").2.1
      = (⟨1, true, true, [("A", 1)]⟩ : ConnectionLimiter) := by
  exact (session_counter_bounded 1 true []).2 _ "A" (by decide)

/-! ## Claim theorems: rate limiter -/

/-- C5 counterexample: with `maxRequests = 1`, `windowSeconds = 60` and
calls for identity `X` at times 0, 1 and 61, the code returns
`true, false, true`, while the claimed behavior — every call records the
current timestamp, prunes, and returns whether the pruned count including
the new timestamp is within the maximum — would return
`true, false, false`; moreover after the rejected call at time 1 the
stored window is `[0]`: the rejected call's timestamp was never
recorded. -/
theorem allow_always_records_counterexample :
    RateLimiter.allowTrace ⟨1, 60, []⟩ "X" [0, 1, 61] = [true, false, true] ∧
    RateLimiter.allowClaimedTrace ⟨1, 60, []⟩ "X" [0, 1, 61]
      = [true, false, false] ∧
    ((((⟨1, 60, []⟩ : RateLimiter).allow "X" 0).2.allow "X" 1).2.hitsOf "X")
      = [0] := by
  refine ⟨?_, ?_, ?_⟩ <;>
    norm_num [RateLimiter.allowTrace, RateLimiter.allowClaimedTrace,
      RateLimiter.allow, RateLimiter.allowClaimed, RateLimiter.pruned,
      RateLimiter.hitsOf, RateLimiter.setHits, getVal, setVal]

/-- C5 (amended): every `allow` call prunes the identity's stored window to
the trailing `windowSeconds` and returns `true` exactly when the pruned
count including the new timestamp is at most `maxRequests`, but it records
the current timestamp only when it admits — a rejected call stores just
the pruned window; with `maxRequests = 3` and `windowSeconds = 60`, four
calls for one identity within one second return
`true, true, true, false`. -/
theorem allow_characterization :
    (∀ (rl : RateLimiter) (identity : String) (now : ℚ),
      ((rl.allow identity now).1 = true ↔
        (rl.pruned identity now).length + 1 ≤ rl.max_requests) ∧
      (rl.allow identity now).2.hitsOf identity =
        (if (rl.allow identity now).1 = true
          then rl.pruned identity now ++ [now]
          else rl.pruned identity now)) ∧
    RateLimiter.allowTrace ⟨3, 60, []⟩ "X" [0, 1/4, 1/2, 3/4]
      = [true, true, true, false] := by
  constructor
  · intro rl identity now
    unfold RateLimiter.allow
    by_cases h : rl.max_requests ≤ (rl.pruned identity now).length
    · constructor
      · simp [h]
        omega
      · simp [h, RateLimiter.setHits, RateLimiter.hitsOf, getVal_setVal_self]
    · constructor
      · simp [h]
        omega
      · simp [h, RateLimiter.setHits, RateLimiter.hitsOf, getVal_setVal_self]
  · norm_num [RateLimiter.allowTrace, RateLimiter.allow, RateLimiter.pruned,
      RateLimiter.hitsOf, RateLimiter.setHits, getVal, setVal]

/-- Witness for C5 (amended): the first call for a fresh identity under the
default-style policy is admitted. -/
theorem allow_characterization_witness :
    ((⟨3, 60, []⟩ : RateLimiter).allow "X" 0).1 = true := by
  exact (allow_characterization.1 ⟨3, 60, []⟩ "X" 0).1.mpr (by decide)

/-! ## Claim theorems: management client construction and health -/

/-- C3: `check_health` is a total boolean function — every failure of
connection establishment or of the readiness wait is caught — returning
`true` exactly when the readiness check succeeds and `false` on timeout or
any transport error, from every prior channel state. -/
theorem check_health_total (cl : XrayClient) (r : ReadyOutcome) :
    (r = ReadyOutcome.ready → (cl.check_health r).2 = true) ∧
    (r ≠ ReadyOutcome.ready → (cl.check_health r).2 = false) := by
  constructor
  · rintro rfl
    by_cases h : cl.channel_open
    · simp [XrayClient.check_health, XrayClient.start, h, ensure_channel_ready]
    · simp [XrayClient.check_health, XrayClient.start, h, ensure_channel_ready]
  · intro h
    by_cases hco : cl.channel_open
    · cases r with
      | ready => exact absurd rfl h
      | timedOut =>
        simp [XrayClient.check_health, XrayClient.start, hco,
          ensure_channel_ready]
      | rpcFailed d s =>
        simp [XrayClient.check_health, XrayClient.start, hco,
          ensure_channel_ready]
    · cases r with
      | ready => exact absurd rfl h
      | timedOut =>
        simp [XrayClient.check_health, XrayClient.start, hco,
          ensure_channel_ready]
      | rpcFailed d s =>
        simp [XrayClient.check_health, XrayClient.start, hco,
          ensure_channel_ready]

/-- Witness for C3: a ready channel reports healthy; a readiness timeout
reports unhealthy instead of raising. -/
theorem check_health_total_witness :
    (probe_client.check_health ReadyOutcome.ready).2 = true ∧
    (probe_client.check_health ReadyOutcome.timedOut).2 = false :=
  ⟨(check_health_total probe_client ReadyOutcome.ready).1 rfl,
    (check_health_total probe_client ReadyOutcome.timedOut).2 (by decide)⟩

/-- C4: constructing the client with a host outside the loopback whitelist
fails immediately with the loopback `XrayClientError` (the spec's
`ConfigurationError`) and produces no client state; with a loopback host it
succeeds, with the channel unopened, so no connection is attempted during
construction. -/
theorem init_loopback_only (host : String) (port : Int)
    (tag atu hs fl enc : String) :
    (host ∉ LOCALHOST_VALUES →
      XrayClient.init host port tag atu hs fl enc =
        Except.error ⟨"Xray gRPC must be accessed via localhost"⟩) ∧
    (host ∈ LOCALHOST_VALUES →
      ∃ cl : XrayClient, XrayClient.init host port tag atu hs fl enc =
          Except.ok cl ∧ cl.channel_open = false) := by
  constructor
  · intro h
    simp [XrayClient.init, h]
  · intro h
    refine ⟨⟨host ++ ":" ++ toString port, tag, atu, hs,
      pyOrStr (some fl) "", pyOrStr (some enc) "none", false⟩, ?_, rfl⟩
    simp [XrayClient.init, h]

/-- Witness for C4: the spec's example host `203.0.113.5` is rejected with
the loopback error; `127.0.0.1` constructs successfully. -/
theorem init_loopback_only_witness :
    XrayClient.init "203.0.113.5" 10085 "vless-reality" ACCOUNT_TYPE_URL
        HANDLER_SERVICE "" "none" =
      Except.error ⟨"Xray gRPC must be accessed via localhost"⟩ ∧
    (XrayClient.init "127.0.0.1" 10085 "vless-reality" ACCOUNT_TYPE_URL
        HANDLER_SERVICE "" "none").isOk = true := by
  constructor
  · exact (init_loopback_only "203.0.113.5" 10085 "vless-reality"
      ACCOUNT_TYPE_URL HANDLER_SERVICE "" "none").1 (by decide)
  · obtain ⟨cl, hcl, -⟩ := (init_loopback_only "127.0.0.1" 10085
      "vless-reality" ACCOUNT_TYPE_URL HANDLER_SERVICE "" "none").2
      (by decide)
    rw [hcl]
    rfl

/-! ## Claim theorems: add and remove user -/

theorem ensure_started_ready (cl : XrayClient) :
    (cl.ensure_started ReadyOutcome.ready).2 = Except.ok () := by
  by_cases h : cl.channel_open <;>
    simp [XrayClient.ensure_started, XrayClient.start, ensure_channel_ready, h]

theorem ensure_started_ready_pair (cl : XrayClient) :
    cl.ensure_started ReadyOutcome.ready =
      ((cl.ensure_started ReadyOutcome.ready).1, Except.ok ()) := by
  rw [← ensure_started_ready cl]

/-- C1: with the channel ready, `add_user` returns `true` for every
identifier when the remote acknowledges; it returns `false` — instead of
raising — when the remote rejects with status `ALREADY_EXISTS` or with
`"exist"` contained in the lower-cased detail text; any other remote
rejection raises `XrayClientError` (the spec's `ManagementError`) carrying
`details or str(exc)`, which is exactly the remote's detail text whenever
that text is non-empty. -/
theorem add_user_classification (cl : XrayClient)
    (remote : AddUserRequest → RpcResult) (uuid : String)
    (code : StatusCode) (details : Option String) (excStr : String) :
    (remote ((cl.ensure_started ReadyOutcome.ready).1.build_add_user_request
        uuid) = RpcResult.acked →
      (cl.add_user ReadyOutcome.ready remote uuid).2 = Except.ok true) ∧
    (remote ((cl.ensure_started ReadyOutcome.ready).1.build_add_user_request
        uuid) = RpcResult.failed code details excStr →
      (code = StatusCode.ALREADY_EXISTS ∨
          containsSub "exist" (lowerString (details.getD "")) = true →
        (cl.add_user ReadyOutcome.ready remote uuid).2 = Except.ok false) ∧
      (code ≠ StatusCode.ALREADY_EXISTS →
        containsSub "exist" (lowerString (details.getD "")) = false →
        (cl.add_user ReadyOutcome.ready remote uuid).2 =
          Except.error ⟨pyOrStr details excStr⟩)) ∧
    (∀ s : String, details = some s → s ≠ "" → pyOrStr details excStr = s) := by
  refine ⟨?_, ?_, ?_⟩
  · intro hrem
    unfold XrayClient.add_user
    rw [ensure_started_ready_pair cl]
    simp [hrem]
  · intro hrem
    constructor
    · intro hcase
      unfold XrayClient.add_user
      rw [ensure_started_ready_pair cl]
      rcases hcase with hc | hc <;> simp [hrem, hc]
    · intro hne hfalse
      unfold XrayClient.add_user
      rw [ensure_started_ready_pair cl]
      simp [hrem, hne, hfalse]
  · rintro s rfl hs
    simp [pyOrStr, hs]

/-- Witness for C1: acknowledgement yields `true`; a rejection whose detail
text mentions an existing user yields `false`; an unrelated rejection
raises the error carrying the remote detail text. -/
theorem add_user_classification_witness :
    (probe_client.add_user ReadyOutcome.ready (fun _ => RpcResult.acked)
        "u1").2 = Except.ok true ∧
    (probe_client.add_user ReadyOutcome.ready
        (fun _ => RpcResult.failed StatusCode.UNKNOWN
          (some "User u1 already EXISTS.") "exc") "u1").2
      = Except.ok false ∧
    (probe_client.add_user ReadyOutcome.ready
        (fun _ => RpcResult.failed StatusCode.INTERNAL (some "boom") "exc")
        "u1").2 = Except.error ⟨"boom"⟩ := by
  refine ⟨?_, ?_, ?_⟩
  · exact (add_user_classification probe_client (fun _ => RpcResult.acked)
      "u1" StatusCode.OK none "").1 rfl
  · exact ((add_user_classification probe_client
      (fun _ => RpcResult.failed StatusCode.UNKNOWN
        (some "User u1 already EXISTS.") "exc") "u1" StatusCode.UNKNOWN
      (some "User u1 already EXISTS.") "exc").2.1 rfl).1 (Or.inr (by decide))
  · exact ((add_user_classification probe_client
      (fun _ => RpcResult.failed StatusCode.INTERNAL (some "boom") "exc")
      "u1" StatusCode.INTERNAL (some "boom") "exc").2.1 rfl).2
      (by decide) (by decide)

/-- C2: with the channel ready, `remove_user` returns `true` for every
identifier when the remote acknowledges; it returns `false` — instead of
raising — when the remote rejects with status `NOT_FOUND` or
`FAILED_PRECONDITION`, or with `"not found"` contained in the lower-cased
detail text; any other remote rejection raises `XrayClientError` (the
spec's `ManagementError`) carrying `details or str(exc)`. -/
theorem remove_user_classification (cl : XrayClient)
    (remote : RemoveUserRequest → RpcResult) (uuid : String)
    (code : StatusCode) (details : Option String) (excStr : String) :
    (remote ⟨(cl.ensure_started ReadyOutcome.ready).1.inbound_tag, uuid⟩
        = RpcResult.acked →
      (cl.remove_user ReadyOutcome.ready remote uuid).2 = Except.ok true) ∧
    (remote ⟨(cl.ensure_started ReadyOutcome.ready).1.inbound_tag, uuid⟩
        = RpcResult.failed code details excStr →
      (code = StatusCode.NOT_FOUND ∨ code = StatusCode.FAILED_PRECONDITION ∨
          containsSub "not found" (lowerString (details.getD "")) = true →
        (cl.remove_user ReadyOutcome.ready remote uuid).2 = Except.ok false) ∧
      (code ≠ StatusCode.NOT_FOUND → code ≠ StatusCode.FAILED_PRECONDITION →
        containsSub "not found" (lowerString (details.getD "")) = false →
        (cl.remove_user ReadyOutcome.ready remote uuid).2 =
          Except.error ⟨pyOrStr details excStr⟩)) := by
  constructor
  · intro hrem
    unfold XrayClient.remove_user
    rw [ensure_started_ready_pair cl]
    simp [hrem]
  · intro hrem
    constructor
    · intro hcase
      unfold XrayClient.remove_user
      rw [ensure_started_ready_pair cl]
      rcases hcase with hc | hc | hc <;> simp [hrem, hc]
    · intro hne1 hne2 hfalse
      unfold XrayClient.remove_user
      rw [ensure_started_ready_pair cl]
      simp [hrem, hne1, hne2, hfalse]

/-- Witness for C2: acknowledgement yields `true`; a `NOT_FOUND` rejection
and a textual `not found` rejection yield `false`; an unrelated rejection
raises the error carrying the remote detail text. -/
theorem remove_user_classification_witness :
    (probe_client.remove_user ReadyOutcome.ready (fun _ => RpcResult.acked)
        "u1").2 = Except.ok true ∧
    (probe_client.remove_user ReadyOutcome.ready
        (fun _ => RpcResult.failed StatusCode.NOT_FOUND none "exc") "u1").2
      = Except.ok false ∧
    (probe_client.remove_user ReadyOutcome.ready
        (fun _ => RpcResult.failed StatusCode.UNKNOWN
          (some "user Not Found here") "exc") "u1").2 = Except.ok false ∧
    (probe_client.remove_user ReadyOutcome.ready
        (fun _ => RpcResult.failed StatusCode.INTERNAL (some "boom") "exc")
        "u1").2 = Except.error ⟨"boom"⟩ := by
  refine ⟨?_, ?_, ?_, ?_⟩
  · exact (remove_user_classification probe_client (fun _ => RpcResult.acked)
      "u1" StatusCode.OK none "").1 rfl
  · exact ((remove_user_classification probe_client
      (fun _ => RpcResult.failed StatusCode.NOT_FOUND none "exc") "u1"
      StatusCode.NOT_FOUND none "exc").2 rfl).1 (Or.inl rfl)
  · exact ((remove_user_classification probe_client
      (fun _ => RpcResult.failed StatusCode.UNKNOWN
        (some "user Not Found here") "exc") "u1" StatusCode.UNKNOWN
      (some "user Not Found here") "exc").2 rfl).1
      (Or.inr (Or.inr (by decide)))
  · exact ((remove_user_classification probe_client
      (fun _ => RpcResult.failed StatusCode.INTERNAL (some "boom") "exc")
      "u1" StatusCode.INTERNAL (some "boom") "exc").2 rfl).2 (by decide)
      (by decide) (by decide)

/-! ## Claim theorems: schema registration -/

theorem find_isSome_append {l1 l2 : List FileDescriptorProto} {n : String}
    (h : (l1.find? (fun f => f.name == n)).isSome = true) :
    ((l1 ++ l2).find? (fun f => f.name == n)).isSome = true := by
  induction l1 with
  | nil => simp at h
  | cons a l ih =>
    by_cases ha : (a.name == n) = true
    · simp [List.find?_cons, ha]
    · simp only [List.find?_cons, ha, Bool.false_eq_true, if_false,
        List.cons_append] at *
      exact ih h

theorem find_append_self_isSome (l : List FileDescriptorProto)
    (fp : FileDescriptorProto) :
    ((l ++ [fp]).find? (fun f => f.name == fp.name)).isSome = true := by
  induction l with
  | nil => simp [List.find?_cons]
  | cons a l ih =>
    by_cases ha : (a.name == fp.name) = true
    · simp [List.find?_cons, ha]
    · simp only [List.cons_append, List.find?_cons, ha, Bool.false_eq_true,
        if_false]
      exact ih

theorem ensure_message_shape {msg : String} {fp : FileDescriptorProto}
    {p q : DescriptorPool} (h : ensure_message msg fp p = Except.ok q) :
    q = p ∨ q.files = p.files ++ [fp] := by
  unfold ensure_message at h
  by_cases hm : p.hasMessage msg = true
  · simp only [hm, if_pos] at h
    cases h
    exact Or.inl rfl
  · simp only [hm, Bool.false_eq_true, if_false] at h
    unfold ensure_descriptor at h
    cases hf : p.findFileByName fp.name with
    | some f =>
      rw [hf] at h
      cases h
      exact Or.inl rfl
    | none =>
      rw [hf] at h
      unfold DescriptorPool.add at h
      rw [hf] at h
      simp only [Option.isSome_none, Bool.false_eq_true, if_false] at h
      by_cases hdup : (account_file.message_type.any
          (fun m => p.hasMessage (account_file.package ++ "." ++ m.name)))
          = true
      · by_cases hd2 : (fp.message_type.any
            (fun m => p.hasMessage (fp.package ++ "." ++ m.name))) = true
        · rw [hd2] at h
          cases h
        · simp only [hd2, Bool.false_eq_true, if_false] at h
          cases h
          exact Or.inr rfl
      · by_cases hd2 : (fp.message_type.any
            (fun m => p.hasMessage (fp.package ++ "." ++ m.name))) = true
        · rw [hd2] at h
          cases h
        · simp only [hd2, Bool.false_eq_true, if_false] at h
          cases h
          exact Or.inr rfl

theorem ensure_message_present {msg : String} {fp : FileDescriptorProto}
    {p q : DescriptorPool} (h : ensure_message msg fp p = Except.ok q) :
    q.hasMessage msg = true ∨ (q.findFileByName fp.name).isSome = true := by
  rcases ensure_message_shape h with hqp | hfiles
  · subst hqp
    unfold ensure_message at h
    by_cases hm : q.hasMessage msg = true
    · exact Or.inl hm
    · simp only [hm, Bool.false_eq_true, if_false] at h
      unfold ensure_descriptor at h
      cases hf : q.findFileByName fp.name with
      | some f =>
        right
        rfl
      | none =>
        simp only [hf] at h
        unfold DescriptorPool.add at h
        simp only [hf, Option.isSome_none, Bool.false_eq_true, if_false] at h
        by_cases hd : (fp.message_type.any
            (fun m => q.hasMessage (fp.package ++ "." ++ m.name))) = true
        · simp only [hd, if_pos] at h
          cases h
        · simp only [hd, Bool.false_eq_true, if_false] at h
          injection h with h3
          have h4 := congrArg DescriptorPool.files h3
          have h5 := congrArg List.length h4
          simp [List.length_append] at h5
  · right
    unfold DescriptorPool.findFileByName
    rw [hfiles]
    exact find_append_self_isSome p.files fp

theorem ensure_message_skip {msg : String} {fp : FileDescriptorProto}
    {p : DescriptorPool}
    (h : p.hasMessage msg = true ∨ (p.findFileByName fp.name).isSome = true) :
    ensure_message msg fp p = Except.ok p := by
  unfold ensure_message
  by_cases hm : p.hasMessage msg = true
  · simp [hm]
  · rcases h with h | h
    · exact absurd h hm
    · simp only [hm, Bool.false_eq_true, if_false]
      unfold ensure_descriptor
      cases hf : p.findFileByName fp.name with
      | some f => rfl
      | none =>
        rw [hf] at h
        simp at h

theorem presence_step {msg : String} {fp fp2 : FileDescriptorProto}
    {p q : DescriptorPool} (hshape : q = p ∨ q.files = p.files ++ [fp2])
    (h : p.hasMessage msg = true ∨ (p.findFileByName fp.name).isSome = true) :
    q.hasMessage msg = true ∨ (q.findFileByName fp.name).isSome = true := by
  rcases hshape with rfl | hq
  · exact h
  · rcases h with h | h
    · left
      unfold DescriptorPool.hasMessage at *
      rw [hq, List.any_append]
      simp [h]
    · right
      unfold DescriptorPool.findFileByName at *
      rw [hq]
      exact find_isSome_append h

/-- C9: schema registration is idempotent — whenever one registration pass
succeeds, running it again from the resulting catalog succeeds and changes
nothing (each schema name is looked up before being defined, so no
duplicate-definition error is ever raised); from the process-start catalog,
any number of passes (one per client instance) equals a single pass, which
succeeds and appends exactly the three schema files. -/
theorem register_idempotent :
    (∀ p q : DescriptorPool, register_proto_definitions p = Except.ok q →
      register_proto_definitions q = Except.ok q) ∧
    (∀ n : Nat, 1 ≤ n →
      registerIter n default_pool = register_proto_definitions default_pool) ∧
    register_proto_definitions default_pool = Except.ok registered_pool := by
  have hmain : ∀ p q : DescriptorPool,
      register_proto_definitions p = Except.ok q →
      register_proto_definitions q = Except.ok q := by
    intro p q h
    unfold register_proto_definitions at h
    cases h1 : ensure_message "xray.proxy.vless.Account" account_file p with
    | error e =>
      simp only [h1] at h
      cases h
    | ok p1 =>
      simp only [h1] at h
      cases h2 : ensure_message "xray.common.protocol.User" user_file p1 with
      | error e =>
        simp only [h2] at h
        cases h
      | ok p2 =>
        simp only [h2] at h
        have hpr1 := ensure_message_present h1
        have hpr2 := ensure_message_present h2
        have hpr3 := ensure_message_present h
        have hs2 := ensure_message_shape h2
        have hs3 := ensure_message_shape h
        have hq1 := presence_step hs3 (presence_step hs2 hpr1)
        have hq2 := presence_step hs3 hpr2
        unfold register_proto_definitions
        simp only [ensure_message_skip hq1, ensure_message_skip hq2,
          ensure_message_skip hpr3]
  have hreg : register_proto_definitions default_pool =
      Except.ok registered_pool := by rfl
  have hfix : register_proto_definitions registered_pool =
      Except.ok registered_pool := by rfl
  have hiter : ∀ n : Nat, registerIter n registered_pool =
      Except.ok registered_pool := by
    intro n
    induction n with
    | zero => rfl
    | succ m ih =>
      unfold registerIter
      rw [hfix]
      exact ih
  refine ⟨hmain, ?_, hreg⟩
  intro n hn
  cases n with
  | zero => omega
  | succ m =>
    unfold registerIter
    simp only [hreg]
    exact hiter m

/-- Witness for C9: one pass from the fully registered catalog returns it
unchanged, and three passes from the process-start catalog equal one. -/
theorem register_idempotent_witness :
    register_proto_definitions registered_pool =
      Except.ok registered_pool ∧
    registerIter 3 default_pool = register_proto_definitions default_pool :=
  ⟨register_idempotent.1 default_pool registered_pool (by rfl),
    register_idempotent.2.1 3 (by omega)⟩

end XrayBackend
